import Mathlib

set_option maxHeartbeats 1000000

/-!
Shallow embedding of the xornet-cloud Backend fleet/session core
(the DatabaseManager and Validators of src/server/routes/signup.js):
input validators, the machine/user/label data model, the periodic
database cleanup (reaper), and the user/machine/label operations.
Timestamps are modelled as Int milliseconds; possibly-undefined numeric
and string fields as Option, with explicit JavaScript truthiness helpers.
-/

/-- ASCII hexadecimal digit, as accepted by the uuid and hex-color patterns. -/
def isHexDigit (c : Char) : Bool :=
  c.isDigit || (decide ('a' ≤ c) && decide (c ≤ 'f')) || (decide ('A' ≤ c) && decide (c ≤ 'F'))

/-- Consume exactly `n` hexadecimal characters, returning the remainder. -/
def checkRun : Nat → List Char → Option (List Char)
  | 0, cs => some cs
  | _ + 1, [] => none
  | n + 1, c :: cs => if isHexDigit c then checkRun n cs else none

/-- Consume a single dash separator. -/
def checkDash : List Char → Option (List Char)
  | [] => none
  | c :: cs => if c = '-' then some cs else none

/-- Consume dash-separated groups of hexadecimal characters of the given sizes. -/
def checkGroups : List Nat → List Char → Option (List Char)
  | [], cs => some cs
  | [n], cs => checkRun n cs
  | n :: m :: ns, cs =>
    match checkRun n cs with
    | none => none
    | some cs1 =>
      match checkDash cs1 with
      | none => none
      | some cs2 => checkGroups (m :: ns) cs2

/-- Canonical hyphenated uuid shape 8-4-4-4-12 of hexadecimal characters
(the format produced by uuidv4 and accepted by Joi.string().uuid()). -/
def isUuidFormat (s : String) : Bool :=
  checkGroups [8, 4, 4, 4, 12] s.data == some []

/-- Validators.validate_uuid: Joi.string().required().uuid(). -/
def validate_uuid (s : String) : Bool :=
  isUuidFormat s

/-- Validators.validate_username: Joi.string().required().min(4).max(32).alphanum().not().empty(). -/
def validate_username (s : String) : Bool :=
  decide (4 ≤ s.length) && decide (s.length ≤ 32) && s.data.all Char.isAlphanum

/-- Validators.validate_password: Joi.string().required().min(4).max(64).not().empty(). -/
def validate_password (s : String) : Bool :=
  decide (4 ≤ s.length) && decide (s.length ≤ 64)

/-- Validators.validate_hex_color: true on the empty string, else the regex
matching a hash sign followed by 6 or 3 hexadecimal characters. -/
def validate_hex_color (s : String) : Bool :=
  if s = "" then true
  else
    match s.data with
    | '#' :: rest => (rest.length == 6 || rest.length == 3) && rest.all isHexDigit
    | _ => false

/-- Validators.validate_label_name: Joi.string().required().min(3).max(16)
with pattern lowercase letters, digits, dash and underscore. -/
def validate_label_name (s : String) : Bool :=
  decide (3 ≤ s.length) && decide (s.length ≤ 16) &&
    s.data.all (fun c => c.isLower || c.isDigit || c = '-' || c = '_')

/-- Validators.validate_label_description: Joi.string().required().max(300)
(the empty string fails Joi's implicit non-empty requirement). -/
def validate_label_description (s : String) : Bool :=
  !(s == "") && decide (s.length ≤ 300)

/-- Split a character list on a separator character. -/
def splitOnChar (sep : Char) : List Char → List (List Char)
  | [] => [[]]
  | c :: rest =>
    let r := splitOnChar sep rest
    if c = sep then [] :: r
    else
      match r with
      | [] => [[c]]
      | g :: gs => (c :: g) :: gs

/-- One dot-separated hostname label: nonempty, alphanumeric characters with
dashes allowed in the interior, first and last character alphanumeric. -/
def hostlabel_ok : List Char → Bool
  | [] => false
  | c :: cs =>
    match cs.reverse with
    | [] => c.isAlphanum
    | d :: mid => c.isAlphanum && d.isAlphanum && mid.all (fun x => x.isAlphanum || x = '-')

/-- Validators.validate_hostname: the dot-separated-labels regex with max length 253. -/
def validate_hostname (s : String) : Bool :=
  decide (s.length ≤ 253) && (splitOnChar '.' s.data).all hostlabel_ok

/-- Machine liveness status. -/
inductive MachineStatus
  | Online
  | Offline
deriving DecidableEq, Repr

/-- A machine document (IMachine), with `last_update` possibly undefined. -/
structure Machine where
  uuid : String
  hardware_uuid : String
  owner_uuid : String
  name : String
  access_token : String
  status : MachineStatus
  last_update : Option Int
deriving DecidableEq, Repr

/-- A user document (IUser); the stored password hash is not modelled, password
comparison is an abstract oracle passed to the operations that need it. -/
structure User where
  uuid : String
  username : String
  email : String
deriving DecidableEq, Repr

/-- A label document (ILabel). -/
structure Label where
  owner_uuid : String
  name : String
  color : String
  icon : Option String
  description : Option String
deriving DecidableEq, Repr

/-- CreateMachineInput. -/
structure CreateMachineInput where
  hardware_uuid : String
  owner_uuid : String
  hostname : String
deriving DecidableEq, Repr

/-- ICreateLabelInput; the optional fields are Option String. -/
structure CreateLabelInput where
  owner_uuid : String
  name : String
  color : Option String
  icon : Option String
  description : Option String
deriving DecidableEq, Repr

/-- JavaScript truthiness test of a possibly-undefined numeric field:
undefined and 0 are falsy. -/
def numFalsy : Option Int → Bool
  | none => true
  | some v => v == 0

/-- JavaScript numeric less-than where an undefined operand compares false. -/
def ltNum : Option Int → Int → Bool
  | none, _ => false
  | some v, x => decide (v < x)

/-- JavaScript truthiness test of a possibly-undefined string field:
undefined and the empty string are falsy. -/
def optStrTruthy : Option String → Bool
  | none => false
  | some s => !(s == "")

/-- The action cleanup_database takes for one machine: delete the document,
demote it to Offline and save, or issue no write. -/
inductive ReapAction
  | delete
  | demote
  | skip
deriving DecidableEq, Repr

/-- The per-machine body of DatabaseManager.cleanup_database: delete when
last_update is falsy or older than 30 days (then continue), else demote an
Online machine whose last_update is older than 10 seconds, else no write. -/
def cleanup_step (now : Int) (m : Machine) : ReapAction :=
  if numFalsy m.last_update || ltNum m.last_update (now - 1000 * 60 * 60 * 24 * 30) then
    ReapAction.delete
  else if decide (m.status = MachineStatus.Online) && ltNum m.last_update (now - 1000 * 10) then
    ReapAction.demote
  else
    ReapAction.skip

/-- Effect of one machine's pending cleanup operation on the store, given a
per-operation success oracle `orc` (Promise.allSettled tolerates failures:
a failed delete or save leaves that document unchanged). -/
def apply_op (now : Int) (orc : Machine → Bool) (m : Machine) : Option Machine :=
  match cleanup_step now m with
  | ReapAction.delete => if orc m then none else some m
  | ReapAction.demote => if orc m then some { m with status := MachineStatus.Offline } else some m
  | ReapAction.skip => some m

/-- The shard guard of cleanup_database: skip the sweep when SHARD_ID is
truthy (defined and nonempty) and different from the string 1. -/
def shard_skips : Option String → Bool
  | none => false
  | some s => !(s == "") && !(s == "1")

/-- The machines with a pending delete or save in one sweep. -/
def pending_ops (now : Int) (ms : List Machine) : List Machine :=
  ms.filter (fun m => !(cleanup_step now m == ReapAction.skip))

/-- DatabaseManager.cleanup_database over a machine store: the shard guard,
then the per-machine pass, then a Promise.allSettled join whose collected
outcomes are returned alongside the resulting store. -/
def cleanup_database (shard : Option String) (now : Int) (ms : List Machine)
    (orc : Machine → Bool) : List Machine × List Bool :=
  if shard_skips shard then (ms, [])
  else (ms.filterMap (apply_op now orc), (pending_ops now ms).map orc)

/-- Remove every dash character from a string (the replace call with the
global dash pattern). -/
def stripDashes (s : String) : String :=
  String.mk (s.data.filter (fun c => c != '-'))

/-- DatabaseManager.generate_access_token: the concatenation of four uuidv4
strings with all dashes stripped; the four uuids are passed as arguments in
place of the random source. -/
def generate_access_token (u1 u2 u3 u4 : String) : String :=
  stripDashes (u1 ++ u2 ++ u3 ++ u4)

/-- DatabaseManager.find_one on the user collection: first match or a
user.notFound rejection. -/
def find_one_user (usersL : List User) (uname : String) : Except String User :=
  match usersL.find? (fun u => u.username == uname) with
  | some u => Except.ok u
  | none => Except.error "user.notFound"

/-- DatabaseManager.login_user: validates the password then the username,
looks the user up via find_user, and resolves with a session token when the
password comparison succeeds; `cmp` is the bcrypt comparison oracle and
`issue` the session-token issuer. -/
def login_user (cmp : User → String → Bool) (issue : User → String)
    (usersL : List User) (username password : String) : Except String (User × String) :=
  if !validate_password password then Except.error "invalid.password"
  else if !validate_username username then Except.error "invalid.username"
  else
    match find_one_user usersL username with
    | Except.error e => Except.error e
    | Except.ok user =>
      if cmp user password then Except.ok (user, issue user)
      else Except.error "invalid credentials"

/-- DatabaseManager.delete_user: validates the password then the username,
looks the user up via find_user, and deletes the first document with that
username only when the password comparison succeeds; resolves with no value
otherwise. -/
def delete_user (cmp : User → String → Bool) (usersL : List User)
    (username password : String) : List User × Except String Unit :=
  if !validate_password password then (usersL, Except.error "invalid.password")
  else if !validate_username username then (usersL, Except.error "invalid.username")
  else
    match find_one_user usersL username with
    | Except.error e => (usersL, Except.error e)
    | Except.ok user =>
      if cmp user password then (usersL.eraseP (fun u => u.username == username), Except.ok ())
      else (usersL, Except.ok ())

/-- A storage-layer error: a MongoServerError with its numeric code, or any
other error. -/
inductive StorageError
  | mongo (code : Int)
  | other (msg : String)
deriving DecidableEq, Repr

/-- An error surfaced by new_user: a translated domain rejection, or the
storage error propagated unchanged. -/
inductive DomainError
  | domain (msg : String)
  | storage (e : StorageError)
deriving DecidableEq, Repr

/-- DatabaseManager.new_user: attempts the storage create (its outcome is the
`createResult` argument); a MongoServerError with code 11000 is translated to
the user.exists domain rejection, every other error propagates unchanged. -/
def new_user (createResult : Except StorageError User) (issue : User → String) :
    Except DomainError (User × String) :=
  match createResult with
  | Except.ok u => Except.ok (u, issue u)
  | Except.error (StorageError.mongo code) =>
    if code = 11000 then Except.error (DomainError.domain "user.exists")
    else Except.error (DomainError.storage (StorageError.mongo code))
  | Except.error (StorageError.other msg) =>
    Except.error (DomainError.storage (StorageError.other msg))

/-- DatabaseManager.new_machine: validates the hardware uuid, the owner uuid
and the hostname formats, then mints an access token and creates the machine.
The created document's status and last_update defaults are not set here in the
source (they live in the machine schema, which is outside src/); per the spec
a new machine starts in a non-Online status with no last_update. -/
def new_machine (fresh_uuid tok : String) (inp : CreateMachineInput) : Except String Machine :=
  if !validate_uuid inp.hardware_uuid then Except.error "invalid.hardware_uuid"
  else if !validate_uuid inp.owner_uuid then Except.error "invalid.owner_uuid"
  else if !validate_hostname inp.hostname then Except.error "invalid.hostname"
  else Except.ok
    { uuid := fresh_uuid
      hardware_uuid := inp.hardware_uuid
      owner_uuid := inp.owner_uuid
      name := inp.hostname
      access_token := tok
      status := MachineStatus.Offline
      last_update := none }

/-- Modelled from the spec: the machine schema (src/database/schemas/machine,
not under src/) persists a heartbeat save; the spec's heartbeat_received
transition refreshes last_update to the current time when a machine is saved
by a successful login-with-token. -/
def heartbeat_save (now : Int) (m : Machine) : Machine :=
  { m with last_update := some now }

/-- Persist an updated machine document in place (mongoose save writes the
document identified by its uuid back to the store). -/
def save_machine (ms : List Machine) (m' : Machine) : List Machine :=
  ms.map (fun m => if m.uuid == m'.uuid then m' else m)

/-- DatabaseManager.login_machine: looks a machine up by access_token,
rejects with an invalid-token error when none matches, otherwise sets the
status to Online and saves (the heartbeat save refreshes last_update). -/
def login_machine (now : Int) (ms : List Machine) (tok : String) :
    List Machine × Except String Machine :=
  match ms.find? (fun m => m.access_token == tok) with
  | none => (ms, Except.error "Invalid access token")
  | some m =>
    let m' := heartbeat_save now { m with status := MachineStatus.Online }
    (save_machine ms m', Except.ok m')

/-- input.name.toLowerCase().replace of whitespace by dashes. -/
def normalize_label_name (s : String) : String :=
  String.mk (s.data.map (fun c => if c.isWhitespace then '-' else c.toLower))

/-- The color new_label works with: input.color when truthy, else the
randomly generated fallback color. -/
def effective_color (randomColor : String) (inp : CreateLabelInput) : String :=
  match inp.color with
  | none => randomColor
  | some c => if c = "" then randomColor else c

/-- DatabaseManager.new_label: normalizes the name, validates the owner uuid,
then — each check guarded on the truthiness of the corresponding input
field — the name, the color, the icon and the description, and creates the
label; `randomColor` stands for the randomHexColor fallback and `vicon` for
validate_label_icon over the icon enum (both defined outside src/). -/
def new_label (randomColor : String) (vicon : String → Bool)
    (inp : CreateLabelInput) : Except String Label :=
  let color := effective_color randomColor inp
  let name := normalize_label_name inp.name
  if !validate_uuid inp.owner_uuid then Except.error "invalid.owner_uuid"
  else if !(inp.name == "") && !validate_label_name name then Except.error "invalid.label.name"
  else if !(color == "") && !validate_hex_color color then Except.error "invalid.hex.color"
  else if optStrTruthy inp.icon && !(vicon (inp.icon.getD "")) then
    Except.error "invalid.label.icon"
  else if optStrTruthy inp.description && !validate_label_description (inp.description.getD "") then
    Except.error "invalid.label.description"
  else Except.ok
    { owner_uuid := inp.owner_uuid
      name := name
      color := color
      icon := inp.icon
      description := inp.description }

/-- The per-machine reap behavior exactly as the specification states it:
delete when last_update is undefined or more than 30 days old, else demote an
Online machine whose last_update is more than 10 seconds old, else no write. -/
def reap_check_claimed (now : Int) (m : Machine) : ReapAction :=
  match m.last_update with
  | none => ReapAction.delete
  | some v =>
    if now - v > 1000 * 60 * 60 * 24 * 30 then ReapAction.delete
    else if m.status = MachineStatus.Online ∧ now - v > 1000 * 10 then ReapAction.demote
    else ReapAction.skip

/-- The per-machine reap behavior amended to the source's truthiness test:
a last_update equal to 0 is falsy in JavaScript, so it is deleted exactly like
an undefined one. -/
def reap_check_amended (now : Int) (m : Machine) : ReapAction :=
  match m.last_update with
  | none => ReapAction.delete
  | some v =>
    if v = 0 ∨ now - v > 1000 * 60 * 60 * 24 * 30 then ReapAction.delete
    else if m.status = MachineStatus.Online ∧ now - v > 1000 * 10 then ReapAction.demote
    else ReapAction.skip
/-! Helper lemmas for the access-token length property. -/

theorem isHexDigit_ne_dash {c : Char} (h : isHexDigit c = true) : (c != '-') = true := by
  rcases eq_or_ne c '-' with rfl | hne
  · exact absurd h (by decide)
  · simp [bne_iff_ne, hne]

theorem checkRun_spec : ∀ (n : Nat) (cs cs' : List Char), checkRun n cs = some cs' →
    (cs.filter (fun c => c != '-')).length = n + (cs'.filter (fun c => c != '-')).length ∧
    (cs.filter (fun c => c != '-')).all isHexDigit =
      (cs'.filter (fun c => c != '-')).all isHexDigit := by
  intro n
  induction n with
  | zero =>
    intro cs cs' h
    simp [checkRun] at h
    subst h
    simp
  | succ k ih =>
    intro cs cs' h
    match cs with
    | [] => simp [checkRun] at h
    | c :: rest =>
      simp only [checkRun] at h
      by_cases hc : isHexDigit c = true
      · rw [if_pos hc] at h
        obtain ⟨hlen, hall⟩ := ih rest cs' h
        have hcd := isHexDigit_ne_dash hc
        constructor
        · simp only [List.filter_cons, hcd, if_pos, List.length_cons]
          omega
        · simp only [List.filter_cons, hcd, if_pos, List.all_cons, hc, Bool.true_and]
          exact hall
      · rw [if_neg hc] at h
        simp at h

theorem checkDash_spec : ∀ (cs cs' : List Char), checkDash cs = some cs' → cs = '-' :: cs' := by
  intro cs cs' h
  match cs with
  | [] => simp [checkDash] at h
  | c :: rest =>
    simp only [checkDash] at h
    by_cases hc : c = '-'
    · subst hc
      rw [if_pos rfl] at h
      simp at h
      subst h
      rfl
    · rw [if_neg hc] at h
      simp at h

theorem checkGroups_spec : ∀ (ns : List Nat) (cs cs' : List Char), checkGroups ns cs = some cs' →
    (cs.filter (fun c => c != '-')).length = ns.sum + (cs'.filter (fun c => c != '-')).length ∧
    (cs.filter (fun c => c != '-')).all isHexDigit =
      (cs'.filter (fun c => c != '-')).all isHexDigit := by
  intro ns
  induction ns with
  | nil =>
    intro cs cs' h
    simp [checkGroups] at h
    subst h
    simp
  | cons n ns ih =>
    intro cs cs' h
    cases ns with
    | nil =>
      simp only [checkGroups] at h
      obtain ⟨l1, a1⟩ := checkRun_spec n cs cs' h
      simp only [List.sum_cons, List.sum_nil]
      constructor
      · omega
      · exact a1
    | cons m ms' =>
      cases h1 : checkRun n cs with
      | none =>
        simp only [checkGroups, h1] at h
        exact Option.noConfusion h
      | some cs1 =>
        obtain ⟨l1, a1⟩ := checkRun_spec n cs cs1 h1
        cases h2 : checkDash cs1 with
        | none =>
          simp only [checkGroups, h1, h2] at h
          exact Option.noConfusion h
        | some cs2 =>
          simp only [checkGroups, h1, h2] at h
          have hd := checkDash_spec cs1 cs2 h2
          subst hd
          obtain ⟨l2, a2⟩ := ih cs2 cs' h
          have hdash : (('-' : Char) != '-') = false := by decide
          simp only [List.filter_cons, hdash, Bool.false_eq_true, ite_false] at l1 a1
          constructor
          · simp only [List.sum_cons] at l2 ⊢
            omega
          · rw [a1, a2]

theorem uuid_strip_spec {s : String} (h : isUuidFormat s = true) :
    (s.data.filter (fun c => c != '-')).length = 32 ∧
    (s.data.filter (fun c => c != '-')).all isHexDigit = true := by
  have h' : checkGroups [8, 4, 4, 4, 12] s.data = some [] := by
    simpa [isUuidFormat] using h
  obtain ⟨hl, ha⟩ := checkGroups_spec _ _ _ h'
  have h32 : ([8, 4, 4, 4, 12] : List Nat).sum = 32 := by decide
  have h0 : (List.filter (fun c => c != '-') ([] : List Char)).length = 0 := rfl
  refine ⟨by omega, ?_⟩
  rw [ha]
  rfl

/-- C8: every machine access token produced by generate_access_token from four
canonically formatted uuids is a string of exactly 128 characters, all of them
hexadecimal, obtained by concatenating the four identifiers with their dash
separators stripped. -/
theorem generate_access_token_hex128 (u1 u2 u3 u4 : String)
    (h1 : isUuidFormat u1 = true) (h2 : isUuidFormat u2 = true)
    (h3 : isUuidFormat u3 = true) (h4 : isUuidFormat u4 = true) :
    (generate_access_token u1 u2 u3 u4).length = 128 ∧
    (generate_access_token u1 u2 u3 u4).data.all isHexDigit = true := by
  obtain ⟨l1, a1⟩ := uuid_strip_spec h1
  obtain ⟨l2, a2⟩ := uuid_strip_spec h2
  obtain ⟨l3, a3⟩ := uuid_strip_spec h3
  obtain ⟨l4, a4⟩ := uuid_strip_spec h4
  have hdata : (u1 ++ u2 ++ u3 ++ u4).data = u1.data ++ u2.data ++ u3.data ++ u4.data := by
    simp [String.data_append]
  constructor
  · show ((u1 ++ u2 ++ u3 ++ u4).data.filter (fun c => c != '-')).length = 128
    rw [hdata]
    simp only [List.filter_append, List.length_append, l1, l2, l3, l4]
  · show ((u1 ++ u2 ++ u3 ++ u4).data.filter (fun c => c != '-')).all isHexDigit = true
    rw [hdata]
    simp only [List.filter_append, List.all_append, a1, a2, a3, a4, Bool.and_self]

/-- C8 witness: the token built from four concrete uuidv4 outputs has 128
hexadecimal characters. -/
theorem generate_access_token_hex128_witness :
    (generate_access_token "8bb3cf50-077a-4586-8567-58f596504a0e"
        "9cc4df61-188b-4697-9678-69f697615b1f"
        "0ab2ce4f-266c-4075-8456-47e485493f0d"
        "1bc3df50-377d-4186-9567-58f596504a0e").length = 128 ∧
    (generate_access_token "8bb3cf50-077a-4586-8567-58f596504a0e"
        "9cc4df61-188b-4697-9678-69f697615b1f"
        "0ab2ce4f-266c-4075-8456-47e485493f0d"
        "1bc3df50-377d-4186-9567-58f596504a0e").data.all isHexDigit = true :=
  generate_access_token_hex128 _ _ _ _ (by decide) (by decide) (by decide) (by decide)

/-- The machine witnessing the divergence between the claimed reap rule and
the source: a defined last_update equal to 0 is falsy in JavaScript. -/
def machine_c2 : Machine :=
  { uuid := "machine-c2", hardware_uuid := "", owner_uuid := "", name := "",
    access_token := "", status := MachineStatus.Offline, last_update := some 0 }

/-- C2 counterexample: at sweep time 1000 ms, a machine whose last_update is
the defined timestamp 0 (not undefined, not older than 30 days, status not
Online) is deleted by the source's per-machine check, while the claimed rule
issues no write; the per-machine check does not behave exactly as claimed. -/
theorem cleanup_step_claim_counterexample :
    cleanup_step 1000 machine_c2 = ReapAction.delete ∧
    reap_check_claimed 1000 machine_c2 = ReapAction.skip ∧
    cleanup_step 1000 machine_c2 ≠ reap_check_claimed 1000 machine_c2 := by
  refine ⟨by decide, by decide, by decide⟩

/-- C2 amended: one pass of the reaper's per-machine check deletes the machine
when last_update is undefined or equal to 0 or more than 30 days older than
now, regardless of status; otherwise it demotes an Online machine whose
last_update is more than 10 seconds old and saves; otherwise it issues no
write — eviction has priority over demotion. -/
theorem cleanup_step_eq_amended (now : Int) (m : Machine) :
    cleanup_step now m = reap_check_amended now m := by
  cases hlu : m.last_update with
  | none =>
    simp [cleanup_step, reap_check_amended, numFalsy, ltNum, hlu]
  | some v =>
    simp only [cleanup_step, reap_check_amended, numFalsy, ltNum, hlu, Bool.or_eq_true,
      Bool.and_eq_true, beq_iff_eq, decide_eq_true_eq]
    have e1 : (v = 0 ∨ v < now - 1000 * 60 * 60 * 24 * 30) ↔
        (v = 0 ∨ now - v > 1000 * 60 * 60 * 24 * 30) := by omega
    have e2 : (v < now - 1000 * 10) ↔ (now - v > 1000 * 10) := by omega
    simp only [e1, e2]

/-- A stored user for the login divergence evaluation. -/
def user_c1 : User :=
  { uuid := "user-c1", username := "alice", email := "alice@example.com" }

/-- C1: evaluating login_user at the failing input. With a well-formed
username and password, a lookup that finds no user rejects with user.notFound
(propagated from find_one), while a found user whose password comparison fails
rejects with the distinct message invalid credentials: the two cases are
distinguishable, contradicting the claimed uniform invalid-credentials error. -/
theorem login_user_enumeration_divergence :
    validate_username "alice" = true ∧
    validate_password "password1" = true ∧
    login_user (fun _ _ => false) (fun _ => "token") [] "alice" "password1" =
      Except.error "user.notFound" ∧
    login_user (fun _ _ => false) (fun _ => "token") [user_c1] "alice" "password1" =
      Except.error "invalid credentials" ∧
    ("user.notFound" : String) ≠ "invalid credentials" := by
  refine ⟨by decide, by decide, rfl, rfl, by decide⟩

/-- C3: for an access token matched by a stored machine (the first match of
the lookup), login_machine returns that machine with status Online and
last_update refreshed to now, and persists exactly that document back to the
store; for a token matching no machine it rejects with the invalid-token
error and leaves the store unchanged. -/
theorem login_machine_heartbeat (now : Int) (ms : List Machine) (tok : String) :
    (∀ m, ms.find? (fun x => x.access_token == tok) = some m →
      login_machine now ms tok =
        (save_machine ms (heartbeat_save now { m with status := MachineStatus.Online }),
         Except.ok (heartbeat_save now { m with status := MachineStatus.Online })) ∧
      (heartbeat_save now { m with status := MachineStatus.Online }).status =
        MachineStatus.Online ∧
      (heartbeat_save now { m with status := MachineStatus.Online }).last_update = some now) ∧
    (ms.find? (fun x => x.access_token == tok) = none →
      login_machine now ms tok = (ms, Except.error "Invalid access token")) := by
  constructor
  · intro m hm
    refine ⟨?_, rfl, rfl⟩
    simp [login_machine, hm]
  · intro hm
    simp [login_machine, hm]

/-- A stored machine for the heartbeat witness. -/
def machine_c3 : Machine :=
  { uuid := "machine-c3", hardware_uuid := "", owner_uuid := "", name := "node-1",
    access_token := "tok-c3", status := MachineStatus.Offline, last_update := some 5 }

/-- C3 witness: a concrete heartbeat turns the matched machine Online with
last_update 77 and persists it; a concrete unknown token is rejected with the
store unchanged. -/
theorem login_machine_heartbeat_witness :
    (login_machine 77 [machine_c3] "tok-c3" =
      ([{ machine_c3 with status := MachineStatus.Online, last_update := some 77 }],
       Except.ok { machine_c3 with status := MachineStatus.Online, last_update := some 77 }) ∧
      ({ machine_c3 with status := MachineStatus.Online, last_update := some 77 } : Machine).status
        = MachineStatus.Online) ∧
    login_machine 77 [machine_c3] "missing" = ([machine_c3], Except.error "Invalid access token") := by
  have h := login_machine_heartbeat 77 [machine_c3] "tok-c3"
  have h2 := login_machine_heartbeat 77 [machine_c3] "missing"
  refine ⟨?_, h2.2 (by decide)⟩
  have hfound := h.1 machine_c3 (by decide)
  refine ⟨?_, by decide⟩
  have := hfound.1
  simpa [heartbeat_save, save_machine, machine_c3] using this

/-- A registration input whose three fields are well-formed but whose
owner_uuid resolves to no user in an empty user store. -/
def input_c4 : CreateMachineInput :=
  { hardware_uuid := "8bb3cf50-077a-4586-8567-58f596504a0e"
    owner_uuid := "9cc4df61-188b-4697-9678-69f697615b1f"
    hostname := "i.imgur.com" }

/-- C4 counterexample: with all three formats valid and an owner_uuid that
resolves to no stored user, new_machine succeeds and persists the machine
instead of failing with an invalid-owner error — the source performs no
owner-resolution check at all. -/
theorem new_machine_no_owner_check :
    validate_uuid input_c4.hardware_uuid = true ∧
    validate_uuid input_c4.owner_uuid = true ∧
    validate_hostname input_c4.hostname = true ∧
    (([] : List User).find? (fun u => u.uuid == input_c4.owner_uuid)) = none ∧
    new_machine "machine-c4" "token-c4" input_c4 =
      Except.ok
        { uuid := "machine-c4", hardware_uuid := input_c4.hardware_uuid,
          owner_uuid := input_c4.owner_uuid, name := input_c4.hostname,
          access_token := "token-c4", status := MachineStatus.Offline,
          last_update := none } := by
  refine ⟨by decide, by decide, by decide, rfl, rfl⟩

/-- C4 amended: new_machine fails with the matching invalid-input error when
the hardware uuid, the owner uuid or the hostname is malformed (checked in
that order), and whenever all three format checks pass it mints the access
token and persists the machine, with no owner-existence check. -/
theorem new_machine_amended (fresh_uuid tok : String) (inp : CreateMachineInput) :
    (validate_uuid inp.hardware_uuid = false →
      new_machine fresh_uuid tok inp = Except.error "invalid.hardware_uuid") ∧
    (validate_uuid inp.hardware_uuid = true → validate_uuid inp.owner_uuid = false →
      new_machine fresh_uuid tok inp = Except.error "invalid.owner_uuid") ∧
    (validate_uuid inp.hardware_uuid = true → validate_uuid inp.owner_uuid = true →
      validate_hostname inp.hostname = false →
      new_machine fresh_uuid tok inp = Except.error "invalid.hostname") ∧
    (validate_uuid inp.hardware_uuid = true → validate_uuid inp.owner_uuid = true →
      validate_hostname inp.hostname = true →
      new_machine fresh_uuid tok inp = Except.ok
        { uuid := fresh_uuid, hardware_uuid := inp.hardware_uuid,
          owner_uuid := inp.owner_uuid, name := inp.hostname, access_token := tok,
          status := MachineStatus.Offline, last_update := none }) := by
  refine ⟨?_, ?_, ?_, ?_⟩
  · intro h1
    simp [new_machine, h1]
  · intro h1 h2
    simp [new_machine, h1, h2]
  · intro h1 h2 h3
    simp [new_machine, h1, h2, h3]
  · intro h1 h2 h3
    simp [new_machine, h1, h2, h3]

/-- C4 amended witness: a malformed hardware uuid is rejected with the
invalid.hardware_uuid error at a concrete input. -/
theorem new_machine_amended_witness :
    new_machine "m-1" "t-1"
      { hardware_uuid := "124124", owner_uuid := "9cc4df61-188b-4697-9678-69f697615b1f",
        hostname := "i.imgur.com" } = Except.error "invalid.hardware_uuid" :=
  (new_machine_amended "m-1" "t-1" _).1 (by decide)

/-- A machine stale enough (never-updated last_update) that the sweep deletes
it whenever the sweep runs at all. -/
def machine_c5 : Machine :=
  { uuid := "machine-c5", hardware_uuid := "", owner_uuid := "", name := "",
    access_token := "", status := MachineStatus.Offline, last_update := none }

/-- C5 counterexample: the empty string is a shard identifier set to a value
other than the string 1, yet the sweep still runs (the guard tests JavaScript
truthiness first), deleting a stale machine and settling one operation rather
than performing zero deletes and zero saves. -/
theorem cleanup_shard_empty_counterexample :
    (some "" : Option String) ≠ some "1" ∧
    cleanup_database (some "") 0 [machine_c5] (fun _ => true) = ([], [true]) ∧
    cleanup_database (some "") 0 [machine_c5] (fun _ => true) ≠ ([machine_c5], []) := by
  refine ⟨by decide, rfl, by decide⟩

/-- C5 amended: a sweep whose shard identifier is set to a nonempty value
other than the string 1 performs zero deletes and zero saves regardless of
machine staleness, while a sweep whose shard identifier is unset, empty, or
the string 1 performs exactly the deletes and demotions computed by the
per-machine check. -/
theorem cleanup_shard_guard_amended (shard : Option String) (now : Int)
    (ms : List Machine) (orc : Machine → Bool) :
    (∀ s, shard = some s → s ≠ "" → s ≠ "1" →
      cleanup_database shard now ms orc = (ms, [])) ∧
    ((shard = none ∨ shard = some "" ∨ shard = some "1") →
      cleanup_database shard now ms orc =
        (ms.filterMap (apply_op now orc), (pending_ops now ms).map orc)) := by
  constructor
  · intro s hs hne hne1
    subst hs
    have hg : shard_skips (some s) = true := by
      simp [shard_skips, hne, hne1]
    simp [cleanup_database, hg]
  · intro h
    have hg : shard_skips shard = false := by
      rcases h with rfl | rfl | rfl <;> simp [shard_skips]
    simp [cleanup_database, hg]

/-- C5 amended witness: a sweep on shard 2 leaves a stale machine untouched
and settles nothing, while the same fleet swept with the identifier unset
deletes it. -/
theorem cleanup_shard_guard_amended_witness :
    cleanup_database (some "2") 0 [machine_c5] (fun _ => true) = ([machine_c5], []) ∧
    cleanup_database none 0 [machine_c5] (fun _ => true) =
      (([machine_c5] : List Machine).filterMap (apply_op 0 (fun _ => true)),
       (pending_ops 0 [machine_c5]).map (fun _ => true)) :=
  ⟨(cleanup_shard_guard_amended (some "2") 0 [machine_c5] (fun _ => true)).1 "2" rfl
      (by decide) (by decide),
   (cleanup_shard_guard_amended none 0 [machine_c5] (fun _ => true)).2 (Or.inl rfl)⟩

/-- C6: with the shard guard passing, one sweep settles an outcome for every
pending per-machine delete or save (a wait-for-all join: the sweep completes
with as many outcomes as pending operations, whatever the failures), the
resulting store applies each machine's operation independently, and a
machine's applied effect depends only on its own operation's outcome, so no
single failure aborts the sweep or blocks the other machines' operations. -/
theorem cleanup_settles_all (shard : Option String) (now : Int) (ms : List Machine)
    (orc orc' : Machine → Bool) (h : shard_skips shard = false) :
    (cleanup_database shard now ms orc).2.length = (pending_ops now ms).length ∧
    (cleanup_database shard now ms orc).1 = ms.filterMap (apply_op now orc) ∧
    (∀ m, orc m = orc' m → apply_op now orc m = apply_op now orc' m) := by
  refine ⟨?_, ?_, ?_⟩
  · simp [cleanup_database, h]
  · simp [cleanup_database, h]
  · intro m hm
    cases hstep : cleanup_step now m <;> simp [apply_op, hstep, hm]

/-- A machine pending deletion in the C6 witness sweep. -/
def machine_c6 : Machine :=
  { uuid := "machine-c6", hardware_uuid := "", owner_uuid := "", name := "",
    access_token := "", status := MachineStatus.Offline, last_update := none }

/-- C6 witness: a concrete sweep of one stale machine settles exactly its one
pending operation, applies its effect, and the per-machine effect agrees
between two oracles that agree on that machine. -/
theorem cleanup_settles_all_witness :
    (cleanup_database none 3 [machine_c6] (fun _ => true)).2.length =
      (pending_ops 3 [machine_c6]).length ∧
    (cleanup_database none 3 [machine_c6] (fun _ => true)).1 =
      ([machine_c6] : List Machine).filterMap (apply_op 3 (fun _ => true)) ∧
    (∀ m, (fun _ => true : Machine → Bool) m = (fun _ => true : Machine → Bool) m →
      apply_op 3 (fun _ => true) m = apply_op 3 (fun _ => true) m) :=
  cleanup_settles_all none 3 [machine_c6] (fun _ => true) (fun _ => true) rfl

/-- C7: when the storage create reports a MongoServerError with the
duplicate-key code 11000, new_user rejects with the user.exists domain error
rather than the raw storage error; every other storage error raised by the
create propagates unchanged. -/
theorem new_user_duplicate_key (issue : User → String) (r : Except StorageError User) :
    (r = Except.error (StorageError.mongo 11000) →
      new_user r issue = Except.error (DomainError.domain "user.exists")) ∧
    (∀ e : StorageError, e ≠ StorageError.mongo 11000 → r = Except.error e →
      new_user r issue = Except.error (DomainError.storage e)) := by
  constructor
  · intro h
    subst h
    rfl
  · intro e he h
    subst h
    cases e with
    | mongo c =>
      have hc : c ≠ 11000 := by
        intro h'
        exact he (by rw [h'])
      simp [new_user, hc]
    | other msg => rfl

/-- C7 witness: the duplicate-key code is translated to user.exists and a
distinct storage error is propagated unchanged at concrete inputs. -/
theorem new_user_duplicate_key_witness :
    new_user (Except.error (StorageError.mongo 11000)) (fun _ => "token") =
      Except.error (DomainError.domain "user.exists") ∧
    new_user (Except.error (StorageError.other "connection reset")) (fun _ => "token") =
      Except.error (DomainError.storage (StorageError.other "connection reset")) :=
  ⟨(new_user_duplicate_key (fun _ => "token") _).1 rfl,
   (new_user_duplicate_key (fun _ => "token") _).2 (StorageError.other "connection reset")
      (by decide) rfl⟩

/-- C9: when the username and password pass format validation, the username
resolves to a stored user, and the password comparison fails, delete_user
resolves successfully with no error and leaves the user store unchanged —
indistinguishable to the caller from a completed deletion. -/
theorem delete_user_wrong_password_silent (cmp : User → String → Bool)
    (usersL : List User) (username password : String) (u : User)
    (hp : validate_password password = true)
    (hu : validate_username username = true)
    (hfind : usersL.find? (fun x => x.username == username) = some u)
    (hcmp : cmp u password = false) :
    delete_user cmp usersL username password = (usersL, Except.ok ()) := by
  simp [delete_user, hp, hu, find_one_user, hfind, hcmp]

/-- A stored user for the silent-refusal witness. -/
def user_c9 : User :=
  { uuid := "user-c9", username := "bobby", email := "bobby@example.com" }

/-- C9 witness: a concrete refused deletion resolves successfully and deletes
nothing. -/
theorem delete_user_wrong_password_silent_witness :
    delete_user (fun _ _ => false) [user_c9] "bobby" "hunter22" =
      ([user_c9], Except.ok ()) :=
  delete_user_wrong_password_silent (fun _ _ => false) [user_c9] "bobby" "hunter22" user_c9
    (by decide) (by decide) (by decide) rfl

/-- C10: for an input whose name is the empty string, with a valid owner uuid,
a valid or absent color, and valid or absent icon and description, the name
check is skipped (its guard tests the truthiness of the input name), so
new_label does not reject with invalid.label.name and creates a label whose
name is the empty string, even though the empty string fails the 3-to-16
character label-name rule. -/
theorem new_label_empty_name_bypass (randomColor : String) (vicon : String → Bool)
    (inp : CreateLabelInput)
    (hname : inp.name = "")
    (howner : validate_uuid inp.owner_uuid = true)
    (hcolor : validate_hex_color (effective_color randomColor inp) = true)
    (hicon : optStrTruthy inp.icon = false ∨ vicon (inp.icon.getD "") = true)
    (hdesc : optStrTruthy inp.description = false ∨
      validate_label_description (inp.description.getD "") = true) :
    new_label randomColor vicon inp = Except.ok
      { owner_uuid := inp.owner_uuid, name := "",
        color := effective_color randomColor inp,
        icon := inp.icon, description := inp.description } ∧
    validate_label_name "" = false := by
  have hnorm : normalize_label_name "" = "" := rfl
  refine ⟨?_, by decide⟩
  rcases hicon with hi | hi <;> rcases hdesc with hd | hd <;>
    simp [new_label, hname, howner, hcolor, hnorm, hi, hd]

/-- The empty-name label input for the C10 witness. -/
def input_c10 : CreateLabelInput :=
  { owner_uuid := "8bb3cf50-077a-4586-8567-58f596504a0e", name := "",
    color := some "#ffffff", icon := none, description := none }

/-- C10 witness: a concrete empty-name input with a valid owner uuid and a
valid provided color yields a created label with the empty name rather than
the invalid.label.name rejection. -/
theorem new_label_empty_name_bypass_witness :
    new_label "#aabbcc" (fun _ => false) input_c10 = Except.ok
      { owner_uuid := input_c10.owner_uuid, name := "",
        color := effective_color "#aabbcc" input_c10,
        icon := input_c10.icon, description := input_c10.description } ∧
    validate_label_name "" = false :=
  new_label_empty_name_bypass "#aabbcc" (fun _ => false) input_c10 rfl (by decide) (by decide)
    (Or.inl rfl) (Or.inl rfl)
